import Mathlib

/-!
Shallow embedding of the MXChip AZ3166 secure-MQTT firmware.

The model is translated from the DeviceConfig variant of `src/main.cpp`
(the second document in `src/src/main.cpp`): the connection supervisor in
`loop()`, the startup sequence `setup()`, the broker connect routine
`connectMQTT()` and the telemetry publisher `publishTelemetry()`.  The
publish-due test of the `.ino` sketch variants (which differs from the
one in `main.cpp`) is modelled separately as `tickIno`.

Machine integers: `millis()` values are `unsigned long` (32 bits on this
target), so time arithmetic is carried out with the wrapping subtraction
`usub32`.  C strings are modelled as `List Char`.  Side effects on the
display, LEDs and serial port are observational and omitted; the calls
into the WiFi/MQTT client library are recorded as explicit actions.
-/

namespace SecureMQTT

/-- Modulus of `unsigned long` arithmetic on the 32-bit target. -/
def U32 : Nat := 4294967296

/-- Wrapping 32-bit unsigned subtraction, as computed by `now - last` on
`unsigned long` operands in the source. -/
def usub32 (a b : Nat) : Nat := (a % U32 + (U32 - b % U32)) % U32

/-- C strings are modelled as lists of characters, without the NUL. -/
abbrev CStr := List Char

/-- Conversion from a Lean string literal to the `CStr` model. -/
def cstr (s : String) : CStr := s.data

/-- The three compile-time connection profiles of `main.cpp`
(`PROFILE_MQTT_USERPASS`, `PROFILE_MQTT_USERPASS_TLS`,
`PROFILE_MQTT_MTLS`). -/
inductive Profile
  | userpass
  | userpassTLS
  | mtls
deriving DecidableEq

/-- Device configuration as read through the `DeviceConfig_Get*`
accessors (EEPROM-backed; contents arbitrary). `sendInterval` is in
seconds, as returned by `DeviceConfig_GetSendInterval`. -/
structure DeviceConfigData where
  brokerHost : CStr
  brokerPort : Int
  deviceId : CStr
  devicePassword : CStr
  caCert : CStr
  clientCert : CStr
  clientKey : CStr
  sendInterval : Nat
  publishTopic : CStr
  subscribeTopic : CStr
deriving DecidableEq

/-- Calls made on the WiFi/TLS socket and the MQTT client, recorded in
source order. -/
inductive ClientAction
  | stopSocket
  | setTimeout (ms : Nat)
  | setCACert (c : CStr)
  | setClientCert (c : CStr)
  | setPrivateKey (k : CStr)
  | setServer (host : CStr) (port : Int)
  | setBufferSize (n : Nat)
  | setKeepAlive (n : Nat)
  | setSocketTimeout (n : Nat)
  | connect (clientId user pass : CStr)
deriving DecidableEq

/-- TLS configuration applied by `connectMQTT()` for each profile
(main.cpp lines 291-301): nothing for userpass, timeout plus CA
certificate for userpass-TLS, timeout plus CA certificate plus client
certificate plus private key for mutual TLS. -/
def tlsConfig (p : Profile) (cfg : DeviceConfigData) : List ClientAction :=
  match p with
  | .userpass => []
  | .userpassTLS =>
      [ClientAction.setTimeout 2000, ClientAction.setCACert cfg.caCert]
  | .mtls =>
      [ClientAction.setTimeout 2000, ClientAction.setCACert cfg.caCert,
       ClientAction.setClientCert cfg.clientCert,
       ClientAction.setPrivateKey cfg.clientKey]

/-- Password passed to `mqttClient.connect` (main.cpp lines 310-316): the
stored device password for the userpass profiles, the empty string for
mutual TLS. -/
def connectPassword (p : Profile) (cfg : DeviceConfigData) : CStr :=
  match p with
  | .userpass => cfg.devicePassword
  | .userpassTLS => cfg.devicePassword
  | .mtls => []

/-- Action trace of one `connectMQTT()` call (main.cpp lines 281-324), in
source order.  Note that the routine reads the configuration fields and
uses them directly: no field is ever checked for emptiness before the
connect handshake. -/
def connectMQTTActions (p : Profile) (cfg : DeviceConfigData) : List ClientAction :=
  [ClientAction.stopSocket]
    ++ tlsConfig p cfg
    ++ [ClientAction.setServer cfg.brokerHost cfg.brokerPort,
        ClientAction.setBufferSize 1024,
        ClientAction.setKeepAlive 60,
        ClientAction.setSocketTimeout 30,
        ClientAction.connect cfg.deviceId cfg.deviceId (connectPassword p cfg)]

/-- Predicate selecting the certificate-material configuration calls. -/
def certMaterial : ClientAction → Bool
  | .setCACert _ => true
  | .setClientCert _ => true
  | .setPrivateKey _ => true
  | _ => false

/-- Size in bytes of the `char payload[700]` buffer in
`publishTelemetry` (main.cpp line 342). -/
def PAYLOAD_BUF : Nat := 700

/-- Untruncated telemetry payload assembled by the `snprintf` in
`publishTelemetry` (main.cpp lines 343-345): the JSON head carrying
`messageId`, `deviceId` and `timestamp`, followed by the sensor JSON with
its leading brace dropped (the `sensorJson + 1` argument). -/
def fullPayload (messageCount : Nat) (deviceId timestamp sensorJson : CStr) : CStr :=
  cstr "\x7b\"messageId\":" ++ cstr (toString messageCount)
    ++ cstr ",\"deviceId\":\"" ++ deviceId
    ++ cstr "\",\"timestamp\":\"" ++ timestamp ++ cstr "\","
    ++ sensorJson.drop 1

/-- Result of one `publishTelemetry()` call: the new value of the
`messageCount` global, whether `mqttClient.publish` was invoked, and the
payload handed to it. -/
structure PubResult where
  messageCount : Nat
  attempted : Bool
  payload : Option CStr
deriving DecidableEq

/-- Model of `publishTelemetry()` (main.cpp lines 329-366).  `connected`
is the `mqttClient.connected()` guard; `sensorJson` is `none` when
`Sensors.toJson` reports that the sensor data did not fit its buffer.
The increment of `messageCount` is performed by the `messageCount++`
argument of the `snprintf`, which runs after serialization succeeds and
before the empty-topic check; the `snprintf` truncates the payload to
`PAYLOAD_BUF - 1` characters.  Failure paths return silently, with no
error report. -/
def publishTelemetry (connected : Bool) (sensorJson : Option CStr)
    (deviceId timestamp publishTopic : CStr) (messageCount : Nat) : PubResult :=
  if connected = false then ⟨messageCount, false, none⟩
  else
    match sensorJson with
    | none => ⟨messageCount, false, none⟩
    | some sj =>
        let payload := (fullPayload messageCount deviceId timestamp sj).take (PAYLOAD_BUF - 1)
        if publishTopic.isEmpty then ⟨messageCount + 1, false, none⟩
        else ⟨messageCount + 1, true, some payload⟩

/-- Mutable state carried across `loop()` iterations: the globals
`hasWifi`, `hasMqtt`, `messageCount` and the function statics
`lastPublish`, `lastWiFiCheck`. -/
structure LoopState where
  hasWifi : Bool
  hasMqtt : Bool
  lastPublish : Nat
  lastWiFiCheck : Nat
  messageCount : Nat
deriving DecidableEq

/-- Per-iteration environment: the `millis()` clock, the WiFi and MQTT
status queries, the outcome of a `connectMQTT` call when one is made,
the `mqttClient.connected()` answer inside `publishTelemetry`, the
sensor serialization result and the formatted timestamp. -/
structure LoopEnv where
  now : Nat
  wifiConnected : Bool
  mqttConnected : Bool
  connectSuccess : Bool
  mqttUpAtPublish : Bool
  sensorJson : Option CStr
  timestamp : CStr

/-- Observable actions of one `loop()` iteration. -/
structure LoopEvents where
  serviced : Bool
  reconnectAttempted : Bool
  reconnected : Bool
  subscribed : Bool
  publishCalled : Bool
  publishedPayload : Option CStr
deriving DecidableEq

/-- Iteration with no observable client calls. -/
def noEvents : LoopEvents :=
  ⟨false, false, false, false, false, none⟩

/-- Telemetry block at the end of `loop()` (main.cpp lines 497-501):
when `now - lastPublish >= (unsigned long)sendInterval * 1000` the
static `lastPublish` is advanced to `now` and `publishTelemetry()` runs;
otherwise nothing happens.  Both sides of the comparison are 32-bit
`unsigned long` values, so the product `sendInterval * 1000` wraps
modulo 2^32.  There is no special case for the first call. -/
def publishStep (cfg : DeviceConfigData) (s : LoopState) (e : LoopEnv)
    (ev : LoopEvents) : LoopState × LoopEvents :=
  if cfg.sendInterval * 1000 % U32 ≤ usub32 e.now s.lastPublish then
    let r := publishTelemetry e.mqttUpAtPublish e.sensorJson cfg.deviceId
               e.timestamp cfg.publishTopic s.messageCount
    ({ s with lastPublish := e.now, messageCount := r.messageCount },
     { ev with publishCalled := r.attempted, publishedPayload := r.payload })
  else (s, ev)

/-- One iteration of `loop()` (main.cpp lines 443-504).  The WiFi poll
runs when 5000 ms have elapsed since `lastWiFiCheck`; observing the link
down forces `hasMqtt := false` in the same update and returns early.
With the link up, a connected client is serviced; a disconnected one
triggers a `connectMQTT` attempt, on success followed by a re-subscribe
when the subscribe topic is non-empty, on failure by an early return. -/
def loopStep (cfg : DeviceConfigData) (s : LoopState) (e : LoopEnv) :
    LoopState × LoopEvents :=
  if 5000 ≤ usub32 e.now s.lastWiFiCheck ∧ e.wifiConnected = false then
    ({ s with lastWiFiCheck := e.now, hasWifi := false, hasMqtt := false },
     noEvents)
  else
    let s1 := if 5000 ≤ usub32 e.now s.lastWiFiCheck then
                { s with lastWiFiCheck := e.now, hasWifi := true }
              else s
    if s1.hasWifi = false then (s1, noEvents)
    else if e.mqttConnected then
      publishStep cfg { s1 with hasMqtt := true } e
        { noEvents with serviced := true }
    else if e.connectSuccess then
      publishStep cfg { s1 with hasMqtt := true } e
        ⟨false, true, true, !cfg.subscribeTopic.isEmpty, false, none⟩
    else
      ({ s1 with hasMqtt := false },
       { noEvents with reconnectAttempted := true })

/-- Iterated `loop()` over a list of per-iteration environments. -/
def runLoop (cfg : DeviceConfigData) (s : LoopState) : List LoopEnv → LoopState
  | [] => s
  | e :: es => runLoop cfg (loopStep cfg s e).1 es

/-- Outcomes of the two blocking operations attempted in `setup()`. -/
structure SetupEnv where
  wifiOK : Bool
  connectSuccess : Bool

/-- State handed to the first `loop()` iteration after a successful
`setup()`: both flags true, both statics and `messageCount` zero. -/
def setupState : LoopState :=
  ⟨true, true, 0, 0, 0⟩

/-- Model of `setup()` (main.cpp lines 368-441).  `none` models the
unrecoverable halt `while (1) delay(1000);`, entered when the WiFi
association fails or when the first `connectMQTT()` fails.  The
configuration is only printed during setup; it is never validated, so
the outcome does not depend on `cfg`. -/
def setupModel (_cfg : DeviceConfigData) (e : SetupEnv) : Option LoopState :=
  if e.wifiOK = false then none
  else if e.connectSuccess = false then none
  else some setupState

/-- Publish-due test of the `.ino` sketch variants (main.cpp line 151 and
part_002 lines 272 and 623): fire when an interval has elapsed, or
unconditionally on the very first call (`lastPublish == 0`). -/
def tickIno (now lastPublish interval : Nat) : Bool :=
  decide (interval ≤ usub32 now lastPublish) || decide (lastPublish = 0)

/-- Sample configuration used by the concrete witness theorems. -/
def cfgSample : DeviceConfigData :=
  ⟨cstr "broker.example.com", 8883, cstr "Device1", cstr "pw",
   cstr "CA", cstr "CERT", cstr "KEY", 5, cstr "testtopics/topic1",
   cstr "testtopics/topic1"⟩

/-- Configuration with every field empty. -/
def cfgAllEmpty : DeviceConfigData :=
  ⟨[], 0, [], [], [], [], [], 0, [], []⟩

/-- Sample sensor JSON produced by the serialization layer. -/
def sampleSensorJson : CStr := cstr "\x7b\"temperature\":24.50\x7d"

/-- Sample ISO-8601 timestamp. -/
def sampleTs : CStr := cstr "2026-01-01T00:00:00Z"

/-- Device identifier of 800 characters, used to overflow the payload
buffer. -/
def longDeviceId : CStr := List.replicate 800 'd'

/-- Environment of a first loop iteration soon after startup: clock at
1000 ms, WiFi up, MQTT session up, serialization succeeding. -/
def envFirstTick : LoopEnv :=
  ⟨1000, true, true, true, true, some sampleSensorJson, sampleTs⟩


lemma publishStep_hasWifi (cfg : DeviceConfigData) (s : LoopState) (e : LoopEnv)
    (ev : LoopEvents) : (publishStep cfg s e ev).1.hasWifi = s.hasWifi := by
  unfold publishStep
  split_ifs <;> rfl

lemma publishStep_hasMqtt (cfg : DeviceConfigData) (s : LoopState) (e : LoopEnv)
    (ev : LoopEvents) : (publishStep cfg s e ev).1.hasMqtt = s.hasMqtt := by
  unfold publishStep
  split_ifs <;> rfl

lemma loopStep_inv (cfg : DeviceConfigData) (s : LoopState) (e : LoopEnv)
    (h : s.hasMqtt = true → s.hasWifi = true) :
    (loopStep cfg s e).1.hasMqtt = true → (loopStep cfg s e).1.hasWifi = true := by
  unfold loopStep
  split_ifs with h1 h2 h3 h4 <;>
    by_cases hw : s.hasWifi = false <;>
      simp_all [publishStep_hasWifi, publishStep_hasMqtt]

lemma publishStep_events (cfg : DeviceConfigData) (s : LoopState) (e : LoopEnv)
    (ev : LoopEvents) :
    (publishStep cfg s e ev).2.serviced = ev.serviced
    ∧ (publishStep cfg s e ev).2.reconnectAttempted = ev.reconnectAttempted
    ∧ (publishStep cfg s e ev).2.reconnected = ev.reconnected
    ∧ (publishStep cfg s e ev).2.subscribed = ev.subscribed := by
  unfold publishStep
  split_ifs <;> simp

lemma usub32_of_le (a b : Nat) (hba : b ≤ a) (ha : a < U32) :
    usub32 a b = a - b := by
  unfold usub32
  unfold U32 at ha ⊢
  omega

/-- C1: a link poll that observes the link down forces the broker flag
down in the same state update, and along every run of the loop the
composite state satisfies hasMqtt implies hasWifi. -/
theorem brokerUp_implies_linkUp :
    (∀ (cfg : DeviceConfigData) (s : LoopState) (e : LoopEnv),
      5000 ≤ usub32 e.now s.lastWiFiCheck → e.wifiConnected = false →
        (loopStep cfg s e).1.hasWifi = false ∧ (loopStep cfg s e).1.hasMqtt = false)
    ∧ (∀ (cfg : DeviceConfigData) (s0 : LoopState) (envs : List LoopEnv),
        (s0.hasMqtt = true → s0.hasWifi = true) →
        (runLoop cfg s0 envs).hasMqtt = true → (runLoop cfg s0 envs).hasWifi = true) := by
  constructor
  · intro cfg s e h1 h2
    unfold loopStep
    simp [h1, h2]
  · intro cfg s0 envs
    induction envs generalizing s0 with
    | nil => intro h; simpa [runLoop] using h
    | cons e es ih =>
        intro h
        simpa [runLoop] using ih _ (loopStep_inv cfg s0 e h)

/-- Witness for brokerUp_implies_linkUp at a concrete down-observing poll
and a concrete run. -/
theorem brokerUp_implies_linkUp_witness :
    ((loopStep cfgSample setupState ⟨6000, false, false, false, false, none, []⟩).1.hasWifi = false
      ∧ (loopStep cfgSample setupState ⟨6000, false, false, false, false, none, []⟩).1.hasMqtt = false)
    ∧ (runLoop cfgSample setupState [envFirstTick]).hasWifi = true :=
  ⟨brokerUp_implies_linkUp.1 cfgSample setupState _ (by decide) rfl,
   brokerUp_implies_linkUp.2 cfgSample setupState [envFirstTick]
     (fun _ => rfl) (by decide)⟩

/-- C2 counterexample: at startup, with the WiFi association up, a failed
first connectMQTT drives setup into the unrecoverable halt loop
(modelled by `none`), so a failed first connect attempt is fatal. -/
theorem startup_connect_failure_halts :
    setupModel cfgSample ⟨true, false⟩ = none := rfl

/-- C2 amended: a connect failure inside the main loop never halts: the
iteration completes with only hasMqtt cleared, and a later iteration
whose connect attempt succeeds reaches the Connected state again. -/
theorem loop_connect_failure_retried :
    (∀ (cfg : DeviceConfigData) (s : LoopState) (e : LoopEnv),
      s.hasWifi = true → usub32 e.now s.lastWiFiCheck < 5000 →
      e.mqttConnected = false → e.connectSuccess = false →
        (loopStep cfg s e).1 = { s with hasMqtt := false }
        ∧ (loopStep cfg s e).2.reconnectAttempted = true
        ∧ (loopStep cfg s e).2.publishCalled = false)
    ∧ (∀ (cfg : DeviceConfigData) (s : LoopState) (e : LoopEnv),
      s.hasWifi = true → usub32 e.now s.lastWiFiCheck < 5000 →
      e.mqttConnected = false → e.connectSuccess = true →
        (loopStep cfg s e).1.hasMqtt = true) := by
  constructor
  · intro cfg s e hw hc hm hcs
    unfold loopStep
    simp [hw, hm, hcs, Nat.not_le.mpr hc, noEvents]
  · intro cfg s e hw hc hm hcs
    unfold loopStep
    simp [hw, hm, hcs, Nat.not_le.mpr hc, publishStep_hasMqtt]

/-- Witness for loop_connect_failure_retried: a concrete failing attempt
followed by a concrete succeeding one. -/
theorem loop_connect_failure_retried_witness :
    (loopStep cfgSample setupState ⟨100, true, false, false, false, none, []⟩).1
        = { setupState with hasMqtt := false }
    ∧ (loopStep cfgSample
        { setupState with hasMqtt := false }
        ⟨200, true, false, true, true, none, []⟩).1.hasMqtt = true :=
  ⟨(loop_connect_failure_retried.1 cfgSample setupState _ rfl (by decide) rfl rfl).1,
   loop_connect_failure_retried.2 cfgSample { setupState with hasMqtt := false } _
     rfl (by decide) rfl rfl⟩

/-- C3 counterexample: very first scheduler tick after startup
(lastPublish at its initial value 0), composite state Connected, clock at
1000 ms, send interval 5 s: `loop()` does not begin a publish cycle,
because the due test at main.cpp line 497 has no first-call special
case. -/
theorem first_tick_not_immediate :
    (loopStep cfgSample setupState envFirstTick).2.publishCalled = false
    ∧ (loopStep cfgSample setupState envFirstTick).1.lastPublish = 0
    ∧ (loopStep cfgSample setupState envFirstTick).1.hasMqtt = true
    ∧ (loopStep cfgSample setupState envFirstTick).1.hasWifi = true := by
  decide

/-- C3 amended: in the main.cpp loop a publish cycle starts exactly when
the wrapped difference now - lastPublish reaches the 32-bit wrapped
product sendInterval * 1000 (so with lastPublish at its initial value 0
the first cycle starts only once now itself reaches the wrapped
interval), while the `.ino` variants fire unconditionally on the first
call via their `lastPublish == 0` test. -/
theorem publish_due_condition :
    (∀ now intv : Nat, tickIno now 0 intv = true)
    ∧ (∀ (cfg : DeviceConfigData) (s : LoopState) (e : LoopEnv),
        s.hasWifi = true → usub32 e.now s.lastWiFiCheck < 5000 →
        e.mqttConnected = true →
        (loopStep cfg s e).1.lastPublish =
          (if cfg.sendInterval * 1000 % U32 ≤ usub32 e.now s.lastPublish
           then e.now else s.lastPublish)) := by
  constructor
  · intro now intv
    simp [tickIno]
  · intro cfg s e hw hc hm
    unfold loopStep publishStep
    simp [hw, hm, Nat.not_le.mpr hc]
    split_ifs <;> rfl

/-- Witness for publish_due_condition: a due first tick and a concrete
tickIno first call. -/
theorem publish_due_condition_witness :
    tickIno 7 0 30000 = true
    ∧ (loopStep cfgSample ⟨true, true, 0, 4000, 0⟩
        ⟨5000, true, true, true, true, some sampleSensorJson, sampleTs⟩).1.lastPublish
        = 5000 :=
  ⟨publish_due_condition.1 7 30000,
   by rw [publish_due_condition.2 cfgSample ⟨true, true, 0, 4000, 0⟩
            ⟨5000, true, true, true, true, some sampleSensorJson, sampleTs⟩
            rfl (by decide) rfl]
      decide⟩

/-- C4 counterexample: connected, serialization succeeded, publish topic
empty: the cycle is abandoned before the publish call, yet messageCount
still increments, because the increment sits in the snprintf ahead of
the empty-topic check. -/
theorem empty_topic_still_increments :
    publishTelemetry true (some sampleSensorJson) (cstr "Device1") sampleTs [] 5
      = ⟨6, false, none⟩ := by
  rfl

/-- C4 amended: messageCount increments exactly when the connected check
and the sensor serialization succeed, regardless of whether the publish
is then skipped for an empty topic and regardless of the transport
outcome; a publish is attempted exactly when additionally the topic is
non-empty. -/
theorem messageCount_increment_iff_serialized :
    ∀ (connected : Bool) (sensorJson : Option CStr)
      (d t topic : CStr) (mc : Nat),
      ((publishTelemetry connected sensorJson d t topic mc).messageCount
          = if connected = true ∧ sensorJson.isSome = true then mc + 1 else mc)
      ∧ ((publishTelemetry connected sensorJson d t topic mc).attempted = true
          ↔ connected = true ∧ sensorJson.isSome = true ∧ topic.isEmpty = false) := by
  intro c sj d t topic mc
  unfold publishTelemetry
  cases c <;> cases sj <;> split_ifs <;> simp_all

/-- C5: an iteration that ends with the broker flag down neither calls
publish nor advances lastPublish, and an unchanged lastPublish keeps a
due tick due at any later instant (absent clock wraparound), so the next
Connected iteration fires promptly. -/
theorem skipped_tick_frame :
    (∀ (cfg : DeviceConfigData) (s : LoopState) (e : LoopEnv),
        (loopStep cfg s e).1.hasMqtt = false →
        (loopStep cfg s e).1.lastPublish = s.lastPublish
        ∧ (loopStep cfg s e).2.publishCalled = false
        ∧ (loopStep cfg s e).2.publishedPayload = none)
    ∧ (∀ intv last now now2 : Nat, last ≤ now → now ≤ now2 → now2 < U32 →
        intv ≤ usub32 now last → intv ≤ usub32 now2 last) := by
  constructor
  · intro cfg s e
    unfold loopStep
    split_ifs <;>
      by_cases hw : s.hasWifi = false <;>
        simp_all [publishStep_hasMqtt, noEvents]
  · intro intv last now now2 h1 h2 h3 h4
    rw [usub32_of_le now last h1 (lt_of_le_of_lt h2 h3)] at h4
    rw [usub32_of_le now2 last (le_trans h1 h2) h3]
    omega

/-- Witness for skipped_tick_frame: a concrete failed-reconnect iteration
and a concrete still-due later instant. -/
theorem skipped_tick_frame_witness :
    ((loopStep cfgSample setupState ⟨100, true, false, false, false, none, []⟩).1.lastPublish = 0
      ∧ (loopStep cfgSample setupState ⟨100, true, false, false, false, none, []⟩).2.publishCalled = false
      ∧ (loopStep cfgSample setupState ⟨100, true, false, false, false, none, []⟩).2.publishedPayload = none)
    ∧ 5000 ≤ usub32 9000 0 :=
  ⟨skipped_tick_frame.1 cfgSample setupState _ (by decide),
   skipped_tick_frame.2 5000 0 6000 9000 (by decide) (by decide) (by decide) (by decide)⟩

/-- C6 counterexample: with every profile-required field empty, no
configuration error is raised and the device does not halt before the
attempt: setup proceeds and the broker handshake is attempted carrying
the empty fields. -/
theorem empty_config_still_connects :
    setupModel cfgAllEmpty ⟨true, true⟩ = some setupState
    ∧ ClientAction.connect [] [] [] ∈ connectMQTTActions Profile.mtls cfgAllEmpty := by
  constructor
  · rfl
  · decide

/-- C6 amended: the firmware performs no configuration validation: for
every configuration the connect handshake appears in the connectMQTT
action trace, and the setup halt depends only on the WiFi and connect
outcomes, never on any configuration field. -/
theorem connect_attempted_without_validation :
    ∀ (cfg : DeviceConfigData) (p : Profile) (e : SetupEnv),
      ClientAction.connect cfg.deviceId cfg.deviceId (connectPassword p cfg)
          ∈ connectMQTTActions p cfg
      ∧ (setupModel cfg e = none ↔ (e.wifiOK = false ∨ e.connectSuccess = false)) := by
  intro cfg p e
  obtain ⟨w, c⟩ := e
  constructor
  · unfold connectMQTTActions
    simp
  · cases w <;> cases c <;> simp [setupModel]

/-- C7: the certificate material configured before the handshake is
exactly what the active profile requires, and the handshake is the last
client action of the connect routine. -/
theorem tls_config_matches_profile :
    ∀ cfg : DeviceConfigData,
      (connectMQTTActions Profile.userpass cfg).filter certMaterial = []
      ∧ (connectMQTTActions Profile.userpassTLS cfg).filter certMaterial
          = [ClientAction.setCACert cfg.caCert]
      ∧ (connectMQTTActions Profile.mtls cfg).filter certMaterial
          = [ClientAction.setCACert cfg.caCert,
             ClientAction.setClientCert cfg.clientCert,
             ClientAction.setPrivateKey cfg.clientKey]
      ∧ (∀ p, (connectMQTTActions p cfg).getLast? =
          some (ClientAction.connect cfg.deviceId cfg.deviceId (connectPassword p cfg))) := by
  intro cfg
  refine ⟨rfl, rfl, rfl, ?_⟩
  intro p
  cases p <;> rfl

set_option maxRecDepth 8000 in
/-- C8 counterexample: a payload whose full serialization exceeds the
699 usable bytes of the buffer is published after silent snprintf
truncation rather than being skipped. -/
theorem oversized_payload_truncated_published :
    (publishTelemetry true (some sampleSensorJson) longDeviceId sampleTs
        (cstr "t") 0).attempted = true
    ∧ (publishTelemetry true (some sampleSensorJson) longDeviceId sampleTs
        (cstr "t") 0).payload
        = some ((fullPayload 0 longDeviceId sampleTs sampleSensorJson).take 699)
    ∧ 699 < (fullPayload 0 longDeviceId sampleTs sampleSensorJson).length
    ∧ (fullPayload 0 longDeviceId sampleTs sampleSensorJson).take 699
        ≠ fullPayload 0 longDeviceId sampleTs sampleSensorJson := by
  refine ⟨rfl, rfl, by decide, ?_⟩
  intro hEq
  have hlen := congrArg List.length hEq
  rw [List.length_take] at hlen
  have h3 : 699 < (fullPayload 0 longDeviceId sampleTs sampleSensorJson).length := by decide
  omega

/-- C8 amended: a failed sensor serialization abandons the cycle
silently (no publish, no error report, no increment); a successful one
always publishes the snprintf truncation of the full payload to the 699
usable bytes of the buffer, so an oversized payload is published
truncated rather than skipped. -/
theorem payload_truncation_behavior :
    ∀ (connected : Bool) (d t topic sj : CStr) (mc : Nat),
      (publishTelemetry connected none d t topic mc = ⟨mc, false, none⟩)
      ∧ ((publishTelemetry connected (some sj) d t topic mc).attempted = true →
          (publishTelemetry connected (some sj) d t topic mc).payload
            = some ((fullPayload mc d t sj).take (PAYLOAD_BUF - 1)))
      ∧ (699 < (fullPayload mc d t sj).length →
          (fullPayload mc d t sj).take (PAYLOAD_BUF - 1) ≠ fullPayload mc d t sj) := by
  intro c d t topic sj mc
  refine ⟨?_, ?_, ?_⟩
  · cases c <;> rfl
  · unfold publishTelemetry
    cases c <;> split_ifs <;> simp_all
  · intro h hEq
    have hlen := congrArg List.length hEq
    rw [List.length_take] at hlen
    simp [PAYLOAD_BUF] at hlen
    omega

set_option maxRecDepth 8000 in
/-- Witness for payload_truncation_behavior at concrete inputs,
including an oversized payload. -/
theorem payload_truncation_behavior_witness :
    (publishTelemetry true none (cstr "d") sampleTs (cstr "p") 3 = ⟨3, false, none⟩)
    ∧ (publishTelemetry true (some sampleSensorJson) (cstr "d") sampleTs (cstr "p") 3).payload
        = some ((fullPayload 3 (cstr "d") sampleTs sampleSensorJson).take (PAYLOAD_BUF - 1))
    ∧ (fullPayload 0 longDeviceId sampleTs sampleSensorJson).take (PAYLOAD_BUF - 1)
        ≠ fullPayload 0 longDeviceId sampleTs sampleSensorJson :=
  ⟨(payload_truncation_behavior true (cstr "d") sampleTs (cstr "p") sampleSensorJson 3).1,
   (payload_truncation_behavior true (cstr "d") sampleTs (cstr "p") sampleSensorJson 3).2.1 (by decide),
   (payload_truncation_behavior true longDeviceId sampleTs (cstr "p") sampleSensorJson 0).2.2 (by decide)⟩

/-- C9: the client servicing call happens only in iterations whose
composite state is Connected, and a disconnected client is never
serviced. -/
theorem service_only_when_connected :
    ∀ (cfg : DeviceConfigData) (s : LoopState) (e : LoopEnv),
      ((loopStep cfg s e).2.serviced = true →
        (loopStep cfg s e).1.hasWifi = true
        ∧ (loopStep cfg s e).1.hasMqtt = true
        ∧ e.mqttConnected = true)
      ∧ (e.mqttConnected = false → (loopStep cfg s e).2.serviced = false) := by
  intro cfg s e
  unfold loopStep
  constructor <;>
    · split_ifs <;>
        by_cases hw : s.hasWifi = false <;>
          simp_all [publishStep_hasWifi, publishStep_hasMqtt, publishStep_events, noEvents]

/-- Witness for service_only_when_connected at a concrete serviced
iteration and a concrete disconnected one. -/
theorem service_only_when_connected_witness :
    ((loopStep cfgSample setupState envFirstTick).1.hasWifi = true
      ∧ (loopStep cfgSample setupState envFirstTick).1.hasMqtt = true
      ∧ envFirstTick.mqttConnected = true)
    ∧ (loopStep cfgSample setupState ⟨100, true, false, false, false, none, []⟩).2.serviced = false :=
  ⟨(service_only_when_connected cfgSample setupState envFirstTick).1 (by decide),
   (service_only_when_connected cfgSample setupState
      ⟨100, true, false, false, false, none, []⟩).2 rfl⟩

/-- C10: a successful reconnect inside the loop with a non-empty
subscribe topic always re-issues the subscription. -/
theorem reconnect_resubscribes :
    ∀ (cfg : DeviceConfigData) (s : LoopState) (e : LoopEnv),
      (loopStep cfg s e).2.reconnected = true →
      cfg.subscribeTopic.isEmpty = false →
      (loopStep cfg s e).2.subscribed = true := by
  intro cfg s e
  unfold loopStep
  split_ifs <;>
    by_cases hw : s.hasWifi = false <;>
      simp_all [publishStep_events, noEvents]

/-- Witness for reconnect_resubscribes at a concrete in-loop reconnect. -/
theorem reconnect_resubscribes_witness :
    (loopStep cfgSample setupState ⟨100, true, false, true, true, none, []⟩).2.subscribed = true :=
  reconnect_resubscribes cfgSample setupState _ (by decide) (by decide)

end SecureMQTT
